import Mathlib

/-!
Verification of the wifi-signal-check terminal dashboard (src/src/main.rs,
src/src/appstate.rs) against its natural-language specification.

The Rust program is shallowly embedded as follows.

* `AppState` / `ProgramState` mirror the types of the same names together
  with their three mutator methods (`change_state`, `change_running`,
  `toggle_hide_info`).
* The wireless-query collaborator (`neli_wifi::AsyncSocket`) is modelled by
  the data it returns: the interface-list query is an
  `Option (List Interface)` and the per-index access-point query is a
  function `Int → Option (List Bss)`.  A transport-level failure is `none`;
  the source calls `.unwrap()` on both queries, so `none` makes the
  embedded computation return `none` (= the process panics).
* More generally, every computation that can panic in the source
  (`Option.unwrap`, slice `try_into().unwrap()`) is embedded in the
  `Option` monad with `none` meaning "uncaught panic".
* `std::hash::DefaultHasher` is `SipHasher13::new_with_keys(0, 0)`, i.e.
  SipHash-1-3 with both keys zero; `siphash` below implements the SipHash
  family on byte lists (64-bit words as `Nat` reduced mod 2^64), and is
  validated against the published SipHash-2-4 reference vectors.
  Hashing a `&str` feeds the string's UTF-8 bytes followed by a single
  0xff byte to the hasher.
* `macaddr::MacAddr6`'s `Display` prints six uppercase two-digit hex
  bytes separated by colons; `macFormat` reproduces it.
* The interface label in the source is `String::from_utf8(indx.to_vec())
  .unwrap()`: it panics when the name bytes are not valid UTF-8.  This
  panic happens after the status check and before the metadata-field
  unwraps and the MAC check; `processInterface` models it with the
  `utf8Valid` guard (strict UTF-8 validity, the exact byte ranges checked
  by Rust's `from_utf8`: no overlongs, no surrogates, max U+10FFFF) at
  that same point.  The decoded label itself is kept as the raw byte list.
* Rust `i32` division truncates toward zero, which is `Int.tdiv`.
-/

namespace WifiCheck

/-! ## SipHash (std::hash::DefaultHasher = SipHash-1-3, keys 0,0) -/

def M64 : Nat := 18446744073709551616

def rotl (x r : Nat) : Nat := ((x <<< r) % M64) ||| (x >>> (64 - r))

structure SipState where
  v0 : Nat
  v1 : Nat
  v2 : Nat
  v3 : Nat

def sipRound (s : SipState) : SipState :=
  let v0 := (s.v0 + s.v1) % M64
  let v1 := rotl s.v1 13
  let v1 := v1 ^^^ v0
  let v0 := rotl v0 32
  let v2 := (s.v2 + s.v3) % M64
  let v3 := rotl s.v3 16
  let v3 := v3 ^^^ v2
  let v0 := (v0 + v3) % M64
  let v3 := rotl v3 21
  let v3 := v3 ^^^ v0
  let v2 := (v2 + v1) % M64
  let v1 := rotl v1 17
  let v1 := v1 ^^^ v2
  let v2 := rotl v2 32
  ⟨v0, v1, v2, v3⟩

def sipRounds : Nat → SipState → SipState
  | 0, s => s
  | n + 1, s => sipRounds n (sipRound s)

def sipCompress (c : Nat) (s : SipState) (m : Nat) : SipState :=
  let s1 : SipState := { s with v3 := s.v3 ^^^ m }
  let s2 := sipRounds c s1
  { s2 with v0 := s2.v0 ^^^ m }

def wordLE : List Nat → Nat
  | [] => 0
  | b :: bs => (b % 256) + 256 * wordLE bs

def sipBlocks (c d len : Nat) : SipState → List Nat → Nat
  | s, b0 :: b1 :: b2 :: b3 :: b4 :: b5 :: b6 :: b7 :: rest =>
    sipBlocks c d len (sipCompress c s (wordLE [b0, b1, b2, b3, b4, b5, b6, b7])) rest
  | s, tail =>
    let b := wordLE tail + (len % 256) * 72057594037927936
    let s1 := sipCompress c s b
    let s2 : SipState := { s1 with v2 := s1.v2 ^^^ 255 }
    let s3 := sipRounds d s2
    s3.v0 ^^^ s3.v1 ^^^ s3.v2 ^^^ s3.v3

def siphash (c d k0 k1 : Nat) (msg : List Nat) : Nat :=
  sipBlocks c d msg.length
    { v0 := k0 ^^^ 0x736f6d6570736575
      v1 := k1 ^^^ 0x646f72616e646f6d
      v2 := k0 ^^^ 0x6c7967656e657261
      v3 := k1 ^^^ 0x7465646279746573 } msg

/-- UTF-8 encoding of one character (str::as_bytes byte stream). -/
def utf8Bytes (c : Char) : List Nat :=
  let n := c.toNat
  if n < 128 then [n]
  else if n < 2048 then [192 ||| (n >>> 6), 128 ||| (n &&& 63)]
  else if n < 65536 then
    [224 ||| (n >>> 12), 128 ||| ((n >>> 6) &&& 63), 128 ||| (n &&& 63)]
  else
    [240 ||| (n >>> 18), 128 ||| ((n >>> 12) &&& 63),
     128 ||| ((n >>> 6) &&& 63), 128 ||| (n &&& 63)]

def strBytes (s : String) : List Nat := (s.data.map utf8Bytes).flatten

/-- Digest computed by `DefaultHasher::new()` followed by `inf.hash(..)` and
`finish()`: SipHash-1-3 with keys (0,0) over the UTF-8 bytes plus the 0xff
terminator that `Hash for str` writes. -/
def hashStr (s : String) : Nat := siphash 1 3 0 0 (strBytes s ++ [255])

/-- Embedding of `get_security_info` (src/src/main.rs lines 367-375). -/
def get_security_info (inf : String) (sec : Bool) : String :=
  if sec then toString (hashStr inf) else inf

/-! ## Colors and signal bucketing -/

inductive Color where
  | Green
  | Yellow
  | Red
deriving DecidableEq

/-- Embedding of `get_color_for_signal` (src/src/main.rs lines 352-358):
a Rust match on `i32` with arms `0..=60`, `61..=100` and `_`. -/
def get_color_for_signal (signal : Int) : Color :=
  if 0 ≤ signal ∧ signal ≤ 60 then Color.Green
  else if 61 ≤ signal ∧ signal ≤ 100 then Color.Yellow
  else Color.Red

/-! ## MacAddr6 display format -/

def hexDigitChar (n : Nat) : Char :=
  if n < 10 then Char.ofNat (48 + n) else Char.ofNat (55 + n)

def byteToHex (b : Nat) : String :=
  String.mk [hexDigitChar (b / 16), hexDigitChar (b % 16)]

/-- `MacAddr6::to_string()`: uppercase two-digit hex bytes joined by colons. -/
def macFormat (bytes : List Nat) : String :=
  String.intercalate ":" (bytes.map byteToHex)

/-! ## Telemetry data (neli_wifi::Interface / neli_wifi::Bss) -/

structure Interface where
  index : Option Int
  name : Option (List Nat)
  mac : Option (List Nat)
  channel : Option Nat
  power : Option Nat
  phy : Option Nat
  device : Option Nat
deriving DecidableEq

structure Bss where
  status : Option Nat
  signal : Option Int
  frequency : Option Nat
  beacon_interval : Option Nat
  seen_ms_ago : Option Nat
deriving DecidableEq

/-- One triple of `Spans` pushed by `create_device` for one interface:
the styled label line, the signal line and the MAC line. -/
structure Row where
  label : List Nat
  bold : Bool
  signal : Int
  color : Color
  macText : String
deriving DecidableEq

/-! ## The application state (src/src/main.rs lines 44-71, src/src/appstate.rs) -/

inductive AppState where
  | Monitoring
  | Main
  | Error (h : String) (d : String)
deriving DecidableEq

structure ProgramState where
  hide_info : Bool
  running : Bool
  state : AppState
deriving DecidableEq

def ProgramState.change_state (p : ProgramState) (s : AppState) : ProgramState :=
  { p with state := s }

def ProgramState.change_running (p : ProgramState) : ProgramState :=
  { p with running := !p.running }

def ProgramState.toggle_hide_info (p : ProgramState) : ProgramState :=
  { p with hide_info := !p.hide_info }

/-- Initial state built in `main` (src/src/main.rs lines 88-92). -/
def initialState : ProgramState :=
  { hide_info := true, running := true, state := AppState.Main }

/-! ## The telemetry pipeline (`create_device`, src/src/main.rs lines 254-331)

`bssOf` is the access-point query `sock.get_bss_info(index)`; `none` models
a transport-level failure (`.unwrap()` panics).  The result type is
`Option (Except AppState _)`: `none` = the process panics, `Except.error` =
the `Err(AppState::Error{..})` early return, `Except.ok` = normal flow. -/

/-- Lines 286-289: `let mut signal = 0; if let Some(sig) = bss.signal
{ signal = sig / 100; }`; Rust `i32` division truncates toward zero. -/
def computeSignal : Option Int → Int
  | some sig => Int.tdiv sig 100
  | none => 0

/-- A UTF-8 continuation byte, 0x80..=0xBF. -/
def isCont (b : Nat) : Bool := 128 ≤ b && b ≤ 191

/-- Strict UTF-8 validity of a byte sequence, with the exact leading-byte
ranges that Rust's `String::from_utf8` checks (core::str::validations):
ASCII; C2..DF + 1 continuation; E0 A0..BF, E1..EC 80..BF, ED 80..9F
(excluding surrogates), EE..EF 80..BF, each + 1 continuation; F0 90..BF,
F1..F3 80..BF, F4 80..8F, each + 2 continuations.  C0, C1, F5..FF and
stray continuation bytes are invalid. -/
def utf8Valid : List Nat → Bool
  | [] => true
  | b :: bs =>
    if b ≤ 127 then utf8Valid bs
    else if 194 ≤ b && b ≤ 223 then
      match bs with
      | c1 :: rest => isCont c1 && utf8Valid rest
      | _ => false
    else if b = 224 then
      match bs with
      | c1 :: c2 :: rest => (160 ≤ c1 && c1 ≤ 191) && isCont c2 && utf8Valid rest
      | _ => false
    else if 225 ≤ b && b ≤ 236 then
      match bs with
      | c1 :: c2 :: rest => isCont c1 && isCont c2 && utf8Valid rest
      | _ => false
    else if b = 237 then
      match bs with
      | c1 :: c2 :: rest => (128 ≤ c1 && c1 ≤ 159) && isCont c2 && utf8Valid rest
      | _ => false
    else if 238 ≤ b && b ≤ 239 then
      match bs with
      | c1 :: c2 :: rest => isCont c1 && isCont c2 && utf8Valid rest
      | _ => false
    else if b = 240 then
      match bs with
      | c1 :: c2 :: c3 :: rest =>
        (144 ≤ c1 && c1 ≤ 191) && isCont c2 && isCont c3 && utf8Valid rest
      | _ => false
    else if 241 ≤ b && b ≤ 243 then
      match bs with
      | c1 :: c2 :: c3 :: rest => isCont c1 && isCont c2 && isCont c3 && utf8Valid rest
      | _ => false
    else if b = 244 then
      match bs with
      | c1 :: c2 :: c3 :: rest =>
        (128 ≤ c1 && c1 ≤ 143) && isCont c2 && isCont c3 && utf8Valid rest
      | _ => false
    else false

/-- Body of the `for interface in intf` loop of `create_device` for a single
interface: `some (Except.ok none)` means the loop pushed nothing and went on
to the next interface, `some (Except.ok (some row))` means one row (one
triple of spans) was pushed, `Except.error` is the early `return Err(..)`,
and `none` means a panic (`unwrap` of a missing field, a failed bss query,
the `String::from_utf8` decode of a non-UTF-8 name at line 278, or a MAC
that is not 6 bytes). -/
def processInterface (interface : Interface) (bssOf : Int → Option (List Bss))
    (hide_info : Bool) : Option (Except AppState (Option Row)) :=
  match interface.name with
  | none => some (Except.ok none)
  | some nm =>
    match interface.index with
    | none => none
    | some ix =>
      match bssOf ix with
      | none => none
      | some bssList =>
        match bssList.head? with
        | none => some (Except.ok none)
        | some bss =>
          match bss.status with
          | none =>
            some (Except.error
              (AppState.Error "Internet connection failed" "Internet connection do not exists"))
          | some status =>
            if utf8Valid nm then
            let signal : Int := computeSignal bss.signal
            match bss.frequency, bss.beacon_interval, bss.seen_ms_ago with
            | some _, some _, some _ =>
              match interface.mac with
              | none => some (Except.ok none)
              | some m =>
                if m.length = 6 then
                  let mac := get_security_info (macFormat m) hide_info
                  match interface.channel, interface.power, interface.phy, interface.device with
                  | some _, some _, some _, some _ =>
                    some (Except.ok (some
                      { label := nm
                        bold := status == 1
                        signal := signal
                        color := get_color_for_signal (Int.natAbs signal)
                        macText := get_security_info mac hide_info }))
                  | _, _, _, _ => none
                else none
            | _, _, _ => none
            else none

/-- Embedding of `create_device` (src/src/main.rs lines 254-331): fold the
loop body over the interface list, keeping rows in interface order,
returning the first `Err` early and propagating panics. -/
def create_device : List Interface → (Int → Option (List Bss)) → Bool →
    Option (Except AppState (List Row))
  | [], _, _ => some (Except.ok [])
  | interface :: rest, bssOf, hide_info =>
    match processInterface interface bssOf hide_info with
    | none => none
    | some (Except.error e) => some (Except.error e)
    | some (Except.ok none) => create_device rest bssOf hide_info
    | some (Except.ok (some row)) =>
      match create_device rest bssOf hide_info with
      | none => none
      | some (Except.error e) => some (Except.error e)
      | some (Except.ok rows) => some (Except.ok (row :: rows))

/-- Embedding of the `AppState::Monitoring` arm of the render loop
(src/src/main.rs lines 201-238).  `ifaces` is the result of
`socket.get_interfaces_info()` (`none` = transport failure, whose `unwrap`
panics).  The result is `none` for a panic, otherwise the state after the
tick paired with `some rows` when the monitoring widget was drawn this tick
and `none` when the `Err` branch hit `continue` without drawing.  Note that
the `len() == 1` check only mutates the state and then falls through:
`create_device` still runs. -/
def monitoringTick (ifaces : Option (List Interface))
    (bssOf : Int → Option (List Bss)) (st : ProgramState) :
    Option (ProgramState × Option (List Row)) :=
  match ifaces with
  | none => none
  | some wifi =>
    let st1 :=
      if wifi.length = 1 then
        st.change_state (AppState.Error "wifi interface error" "wifi interface is not existed")
      else st
    match create_device wifi bssOf st1.hide_info with
    | none => none
    | some (Except.error e) => some (st1.change_state e, none)
    | some (Except.ok rows) => some (st1, some rows)

/-! ## The input task (src/src/main.rs lines 105-133) -/

inductive KeyCode where
  | Esc
  | Char (c : Char)
  | Other
deriving DecidableEq

/-- The five successive `if key.code == ..` statements of the input task
applied to one key-press event. -/
def applyKey (st : ProgramState) (code : KeyCode) : ProgramState :=
  let st := if code = KeyCode.Esc then st.change_running else st
  let st := if code = KeyCode.Char 'q' then st.change_running else st
  let st := if code = KeyCode.Char 'm' then st.change_state AppState.Monitoring else st
  let st := if code = KeyCode.Char 'h' then st.toggle_hide_info else st
  let st := if code = KeyCode.Char 'u' then st.change_state AppState.Monitoring else st
  st

/-- The input task loop: `while running { read a key; handle it }`, applied
to a finite schedule of incoming key-press events.  Once `running` is false
the loop exits and later events are never applied. -/
def input_thread : ProgramState → List KeyCode → ProgramState
  | st, [] => st
  | st, k :: ks => if st.running then input_thread (applyKey st k) ks else st

/-! ## Concrete fixtures used in witnesses and counterexamples -/

def bssFull : Bss :=
  { status := some 1, signal := some (-4500), frequency := some 2412,
    beacon_interval := some 100, seen_ms_ago := some 10 }

def bssNoStatus : Bss :=
  { bssFull with status := none }

def ifaceFull : Interface :=
  { index := some 3, name := some [119, 108, 97, 110, 48],
    mac := some [170, 187, 204, 221, 238, 255],
    channel := some 1, power := some 2000, phy := some 0, device := some 1 }

def ifaceNoName : Interface := { ifaceFull with name := none }

def ifaceNoMac : Interface := { ifaceFull with mac := none }

def bssOfFull : Int → Option (List Bss) := fun _ => some [bssFull]

def bssOfEmpty : Int → Option (List Bss) := fun _ => some []

def bssOfNoStatus : Int → Option (List Bss) := fun _ => some [bssNoStatus]

def bssOfFail : Int → Option (List Bss) := fun _ => none

def stMonitoring : ProgramState :=
  { hide_info := false, running := true, state := AppState.Monitoring }

/-! ## Sanity checks of the SipHash embedding against published vectors -/

/-- SipHash-2-4 reference vector: key 000102..0f, empty message. -/
theorem siphash24_vector_empty :
    siphash 2 4 0x0706050403020100 0x0f0e0d0c0b0a0908 [] = 0x726fdb47dd0e0e31 := by decide

/-- SipHash-2-4 reference vector from the SipHash paper: key 000102..0f,
message 000102..0e (15 bytes). -/
theorem siphash24_vector_paper :
    siphash 2 4 0x0706050403020100 0x0f0e0d0c0b0a0908
      [0, 1, 2, 3, 4, 5, 6, 7, 8, 9, 10, 11, 12, 13, 14] = 0xa129ca6149be45e5 := by decide

/-- Sanity checks of the UTF-8 validator: ASCII "wlan0" and a 3-byte CJK
character are valid; an encoded surrogate (ED A0 80), an overlong NUL
(C0 80) and a stray 0xFF are invalid, exactly as for Rust's
`String::from_utf8`. -/
theorem utf8Valid_examples :
    utf8Valid [119, 108, 97, 110, 48] = true ∧
    utf8Valid [228, 184, 173] = true ∧
    utf8Valid [237, 160, 128] = false ∧
    utf8Valid [192, 128] = false ∧
    utf8Valid [255] = false := by decide

/-! ## Extractors used to state row-level properties -/

def rowMacOf : Option (Except AppState (Option Row)) → Option String
  | some (Except.ok (some row)) => some row.macText
  | _ => none

def rowSignalOf : Option (Except AppState (Option Row)) → Option Int
  | some (Except.ok (some row)) => some row.signal
  | _ => none

def rowColorOf : Option (Except AppState (Option Row)) → Option Color
  | some (Except.ok (some row)) => some row.color
  | _ => none

/-! ## Helper lemmas -/

theorem change_state_hide_info (p : ProgramState) (s : AppState) :
    (p.change_state s).hide_info = p.hide_info := rfl

theorem change_state_change_state (p : ProgramState) (a b : AppState) :
    (p.change_state a).change_state b = p.change_state b := rfl

theorem processInterface_noName (i : Interface) (bssOf : Int → Option (List Bss))
    (hide : Bool) (h : i.name = none) :
    processInterface i bssOf hide = some (Except.ok none) := by
  simp [processInterface, h]

theorem processInterface_noIndex (i : Interface) (bssOf : Int → Option (List Bss))
    (hide : Bool) (nm : List Nat) (hnm : i.name = some nm) (hix : i.index = none) :
    processInterface i bssOf hide = none := by
  simp [processInterface, hnm, hix]

theorem processInterface_queryFail (i : Interface) (bssOf : Int → Option (List Bss))
    (hide : Bool) (nm : List Nat) (ix : Int)
    (hnm : i.name = some nm) (hix : i.index = some ix) (hq : bssOf ix = none) :
    processInterface i bssOf hide = none := by
  simp [processInterface, hnm, hix, hq]

theorem processInterface_noRecord (i : Interface) (bssOf : Int → Option (List Bss))
    (hide : Bool) (nm : List Nat) (ix : Int)
    (hnm : i.name = some nm) (hix : i.index = some ix) (hq : bssOf ix = some []) :
    processInterface i bssOf hide = some (Except.ok none) := by
  simp [processInterface, hnm, hix, hq]

theorem processInterface_noStatus (i : Interface) (bssOf : Int → Option (List Bss))
    (hide : Bool) (nm : List Nat) (ix : Int) (bss : Bss) (tl : List Bss)
    (hnm : i.name = some nm) (hix : i.index = some ix) (hq : bssOf ix = some (bss :: tl))
    (hst : bss.status = none) :
    processInterface i bssOf hide =
      some (Except.error
        (AppState.Error "Internet connection failed" "Internet connection do not exists")) := by
  simp [processInterface, hnm, hix, hq, hst]

theorem processInterface_namePanic (i : Interface) (bssOf : Int → Option (List Bss))
    (hide : Bool) (nm : List Nat) (ix : Int) (bss : Bss) (tl : List Bss) (stt : Nat)
    (hnm : i.name = some nm) (hix : i.index = some ix) (hq : bssOf ix = some (bss :: tl))
    (hst : bss.status = some stt) (hvu : utf8Valid nm = false) :
    processInterface i bssOf hide = none := by
  simp [processInterface, hnm, hix, hq, hst, hvu]

theorem processInterface_noMac (i : Interface) (bssOf : Int → Option (List Bss))
    (hide : Bool) (nm : List Nat) (ix : Int) (bss : Bss) (tl : List Bss)
    (stt fr bi sn : Nat)
    (hnm : i.name = some nm) (hix : i.index = some ix) (hq : bssOf ix = some (bss :: tl))
    (hst : bss.status = some stt) (hvu : utf8Valid nm = true)
    (hfr : bss.frequency = some fr)
    (hbi : bss.beacon_interval = some bi) (hsn : bss.seen_ms_ago = some sn)
    (hm : i.mac = none) :
    processInterface i bssOf hide = some (Except.ok none) := by
  simp [processInterface, hnm, hix, hq, hst, hvu, hfr, hbi, hsn, hm]

theorem processInterface_success (i : Interface) (bssOf : Int → Option (List Bss))
    (hide : Bool) (nm m : List Nat) (ix : Int) (bss : Bss) (tl : List Bss)
    (stt fr bi sn ch pw ph dv : Nat)
    (hnm : i.name = some nm) (hix : i.index = some ix) (hq : bssOf ix = some (bss :: tl))
    (hst : bss.status = some stt) (hvu : utf8Valid nm = true)
    (hfr : bss.frequency = some fr)
    (hbi : bss.beacon_interval = some bi) (hsn : bss.seen_ms_ago = some sn)
    (hm : i.mac = some m) (h6 : m.length = 6)
    (hch : i.channel = some ch) (hpw : i.power = some pw) (hph : i.phy = some ph)
    (hdv : i.device = some dv) :
    processInterface i bssOf hide = some (Except.ok (some
      { label := nm
        bold := stt == 1
        signal := computeSignal bss.signal
        color := get_color_for_signal (Int.natAbs (computeSignal bss.signal))
        macText := get_security_info (get_security_info (macFormat m) hide) hide })) := by
  simp [processInterface, hnm, hix, hq, hst, hvu, hfr, hbi, hsn, hm, h6, hch, hpw, hph, hdv]

theorem create_device_panic (i : Interface) (rest : List Interface)
    (bssOf : Int → Option (List Bss)) (hide : Bool)
    (h : processInterface i bssOf hide = none) :
    create_device (i :: rest) bssOf hide = none := by
  simp [create_device, h]

theorem create_device_skip (i : Interface) (rest : List Interface)
    (bssOf : Int → Option (List Bss)) (hide : Bool)
    (h : processInterface i bssOf hide = some (Except.ok none)) :
    create_device (i :: rest) bssOf hide = create_device rest bssOf hide := by
  simp [create_device, h]

theorem create_device_err (i : Interface) (rest : List Interface)
    (bssOf : Int → Option (List Bss)) (hide : Bool) (e : AppState)
    (h : processInterface i bssOf hide = some (Except.error e)) :
    create_device (i :: rest) bssOf hide = some (Except.error e) := by
  simp [create_device, h]

theorem create_device_row (i : Interface) (rest : List Interface)
    (bssOf : Int → Option (List Bss)) (hide : Bool) (row : Row) (rows : List Row)
    (h : processInterface i bssOf hide = some (Except.ok (some row)))
    (hrest : create_device rest bssOf hide = some (Except.ok rows)) :
    create_device (i :: rest) bssOf hide = some (Except.ok (row :: rows)) := by
  simp [create_device, h, hrest]

theorem input_thread_stopped (st : ProgramState) (ks : List KeyCode)
    (h : st.running = false) : input_thread st ks = st := by
  cases ks with
  | nil => rfl
  | cons k ks => simp [input_thread, h]

theorem applyKey_esc (st : ProgramState) : applyKey st KeyCode.Esc = st.change_running := rfl

theorem applyKey_q (st : ProgramState) :
    applyKey st (KeyCode.Char 'q') = st.change_running := rfl

theorem applyKey_other_running (st : ProgramState) (k : KeyCode)
    (h1 : k ≠ KeyCode.Esc) (h2 : k ≠ KeyCode.Char 'q') :
    (applyKey st k).running = st.running := by
  simp only [applyKey, if_neg h1, if_neg h2]
  split_ifs <;> rfl

theorem input_thread_quit_iff (ks : List KeyCode) : ∀ st : ProgramState, st.running = true →
    ((input_thread st ks).running = false ↔
      ∃ k ∈ ks, k = KeyCode.Esc ∨ k = KeyCode.Char 'q') := by
  induction ks with
  | nil =>
    intro st h
    simp [input_thread, h]
  | cons k ks ih =>
    intro st h
    have hstep : input_thread st (k :: ks) = input_thread (applyKey st k) ks := by
      simp [input_thread, h]
    by_cases hk : k = KeyCode.Esc ∨ k = KeyCode.Char 'q'
    · have hrun : (applyKey st k).running = false := by
        rcases hk with hk | hk <;> subst hk <;>
          simp [applyKey_esc, applyKey_q, ProgramState.change_running, h]
      rw [hstep, input_thread_stopped _ _ hrun, hrun]
      simp only [true_iff]
      exact ⟨k, List.mem_cons_self k ks, hk⟩
    · push_neg at hk
      have hrun : (applyKey st k).running = true := by
        rw [applyKey_other_running st k hk.1 hk.2, h]
      rw [hstep, ih _ hrun]
      constructor
      · rintro ⟨k', hmem, hk'⟩
        exact ⟨k', List.mem_cons_of_mem _ hmem, hk'⟩
      · rintro ⟨k', hmem, hk'⟩
        rcases List.mem_cons.mp hmem with rfl | hmem
        · rcases hk' with hk' | hk'
          · exact absurd hk' hk.1
          · exact absurd hk' hk.2
        · exact ⟨k', hmem, hk'⟩

/-! ## Claim C1 -/

/-- Claim C1 counterexample: the claim says every telemetry failure is caught
at the pipeline boundary and converted to the Error view, and that no such
failure propagates as an uncaught fault (panic).  But a transport-level
failure of the interface-list query (`socket.get_interfaces_info()` at
src/src/main.rs line 202, modelled by `ifaces = none`) hits `.unwrap()` and
the whole tick panics: `monitoringTick` returns `none` (panic), not a state
whose view is `Error`. -/
theorem c1_counterexample :
    monitoringTick none bssOfFull stMonitoring = none := rfl

/-- Claim C1 amended: only the missing-status-field failure is caught at the
Telemetry Pipeline boundary and converted to a transition of the view to
`Error`; a transport-level failure of the interface-list query, a missing
interface index, and a transport-level failure of the access-point query all
propagate as panics (`none`).  The last conjunct shows the conversion that
does exist: any `Err` from `create_device` is written to the state as the
new view and the tick continues without drawing. -/
theorem c1_amended :
    (∀ (bssOf : Int → Option (List Bss)) (st : ProgramState),
      monitoringTick none bssOf st = none) ∧
    (∀ (i : Interface) (rest : List Interface) (bssOf : Int → Option (List Bss))
        (hide : Bool) (nm : List Nat), i.name = some nm → i.index = none →
      create_device (i :: rest) bssOf hide = none) ∧
    (∀ (i : Interface) (rest : List Interface) (bssOf : Int → Option (List Bss))
        (hide : Bool) (nm : List Nat) (ix : Int),
        i.name = some nm → i.index = some ix → bssOf ix = none →
      create_device (i :: rest) bssOf hide = none) ∧
    (∀ (i : Interface) (rest : List Interface) (bssOf : Int → Option (List Bss))
        (hide : Bool) (nm : List Nat) (ix : Int) (bss : Bss) (tl : List Bss),
        i.name = some nm → i.index = some ix → bssOf ix = some (bss :: tl) →
        bss.status = none →
      create_device (i :: rest) bssOf hide =
        some (Except.error
          (AppState.Error "Internet connection failed" "Internet connection do not exists"))) ∧
    (∀ (wifi : List Interface) (bssOf : Int → Option (List Bss)) (st : ProgramState)
        (e : AppState), create_device wifi bssOf st.hide_info = some (Except.error e) →
      monitoringTick (some wifi) bssOf st = some (st.change_state e, none)) := by
  refine ⟨fun bssOf st => rfl, ?_, ?_, ?_, ?_⟩
  · intro i rest bssOf hide nm hnm hix
    exact create_device_panic _ _ _ _ (processInterface_noIndex i bssOf hide nm hnm hix)
  · intro i rest bssOf hide nm ix hnm hix hq
    exact create_device_panic _ _ _ _ (processInterface_queryFail i bssOf hide nm ix hnm hix hq)
  · intro i rest bssOf hide nm ix bss tl hnm hix hq hst
    exact create_device_err _ _ _ _ _ (processInterface_noStatus i bssOf hide nm ix bss tl hnm hix hq hst)
  · intro wifi bssOf st e h
    by_cases h1 : wifi.length = 1 <;>
      simp [monitoringTick, h1, change_state_hide_info, change_state_change_state, h]

/-- Claim C1 amended, witness: each conjunct at a concrete input.  The
interface-list transport failure, the missing index and the access-point
transport failure all panic; the missing status field is converted to the
`Error` view. -/
theorem c1_amended_witness :
    monitoringTick none bssOfFull stMonitoring = none ∧
    create_device [{ ifaceFull with index := none }] bssOfFull true = none ∧
    create_device [ifaceFull] bssOfFail true = none ∧
    create_device [ifaceFull] bssOfNoStatus true =
      some (Except.error
        (AppState.Error "Internet connection failed" "Internet connection do not exists")) ∧
    monitoringTick (some [ifaceFull, ifaceNoName]) bssOfNoStatus stMonitoring =
      some (stMonitoring.change_state
        (AppState.Error "Internet connection failed" "Internet connection do not exists"), none) :=
  ⟨c1_amended.1 bssOfFull stMonitoring,
   c1_amended.2.1 { ifaceFull with index := none } [] bssOfFull true
     [119, 108, 97, 110, 48] rfl rfl,
   c1_amended.2.2.1 ifaceFull [] bssOfFail true [119, 108, 97, 110, 48] 3 rfl rfl rfl,
   c1_amended.2.2.2.1 ifaceFull [] bssOfNoStatus true [119, 108, 97, 110, 48] 3
     bssNoStatus [] rfl rfl rfl rfl,
   c1_amended.2.2.2.2 [ifaceFull, ifaceNoName] bssOfNoStatus stMonitoring
     (AppState.Error "Internet connection failed" "Internet connection do not exists") rfl⟩

/-! ## Claim C2 -/

/-- Claim C2 counterexample: with an interface list of length exactly 1
whose single entry is a fully populated interface, the tick does transition
the view to the `wifi interface error` / `wifi interface is not existed`
state, but it does not stop: the `len() == 1` branch at src/src/main.rs
lines 203-208 has no `continue`, so `create_device` still runs, performs
the per-interface access-point query, and the monitoring widget with one
display row is drawn for that tick (the second component is `some` of a
one-row list, not `none`). -/
theorem c2_counterexample :
    (monitoringTick (some [ifaceFull]) bssOfFull stMonitoring).map
      (fun p => (p.1.state, p.2.map List.length)) =
    some (AppState.Error "wifi interface error" "wifi interface is not existed", some 1) := rfl

/-- Claim C2 amended: when the interface list has length exactly 1 the
sample produces the `ErrorSignal{wifi interface error, wifi interface is
not existed}` view transition, but it does not stop: `create_device` is
still invoked on the same list (performing the per-interface queries), and
if it succeeds its rows are drawn for that tick; the error view is only
rendered from the next tick on. -/
theorem c2_amended (wifi : List Interface) (bssOf : Int → Option (List Bss))
    (st : ProgramState) (rows : List Row) (h1 : wifi.length = 1)
    (hok : create_device wifi bssOf st.hide_info = some (Except.ok rows)) :
    monitoringTick (some wifi) bssOf st =
      some (st.change_state
        (AppState.Error "wifi interface error" "wifi interface is not existed"), some rows) := by
  simp [monitoringTick, h1, change_state_hide_info, hok]

/-- Claim C2 amended, witness: the single-interface tick transitions the
view to the wifi-interface error and still draws the row computed from that
very interface. -/
theorem c2_amended_witness :
    monitoringTick (some [ifaceFull]) bssOfFull stMonitoring =
      some (stMonitoring.change_state
        (AppState.Error "wifi interface error" "wifi interface is not existed"),
        some [{ label := [119, 108, 97, 110, 48], bold := true, signal := -45,
                color := Color.Green, macText := "AA:BB:CC:DD:EE:FF" }]) :=
  c2_amended [ifaceFull] bssOfFull stMonitoring
    [{ label := [119, 108, 97, 110, 48], bold := true, signal := -45,
       color := Color.Green, macText := "AA:BB:CC:DD:EE:FF" }] rfl rfl

/-! ## Claim C3 -/

/-- Claim C3 counterexample: with the hide flag true, the MAC field of the
produced display row is not the Anonymization Policy applied once to the
colon-separated hardware address, because `get_security_info` is applied a
second time when the mac span is built (src/src/main.rs line 322 re-hashes
the `mac` variable that was already hashed at line 299): the field equals
the digest of the digest, which differs from the single digest. -/
theorem c3_counterexample :
    rowMacOf (processInterface ifaceFull bssOfFull true) ≠
      some (get_security_info (macFormat [170, 187, 204, 221, 238, 255]) true) ∧
    rowMacOf (processInterface ifaceFull bssOfFull true) =
      some (get_security_info
        (get_security_info (macFormat [170, 187, 204, 221, 238, 255]) true) true) :=
  ⟨by decide, rfl⟩

/-- Claim C3 amended: for every interface sample that produces a display
row (in particular the interface's name bytes are valid UTF-8, since the
source panics at the `String::from_utf8` unwrap of src/src/main.rs line 278
otherwise) and every value of the hide flag, the MAC field of the row
equals the Anonymization Policy applied twice to the interface's 6-byte
hardware address formatted as a canonical colon-separated string.  (With
hide false this coincides with the raw string, since the policy is then the
identity; with hide true it is the digest of the digest, not the digest.) -/
theorem c3_amended (i : Interface) (bssOf : Int → Option (List Bss)) (hide : Bool)
    (rest : List Interface) (nm m : List Nat) (ix : Int) (bss : Bss) (tl : List Bss)
    (stt fr bi sn ch pw ph dv : Nat) (rows : List Row)
    (hnm : i.name = some nm) (hix : i.index = some ix) (hq : bssOf ix = some (bss :: tl))
    (hst : bss.status = some stt) (hvu : utf8Valid nm = true)
    (hfr : bss.frequency = some fr)
    (hbi : bss.beacon_interval = some bi) (hsn : bss.seen_ms_ago = some sn)
    (hm : i.mac = some m) (h6 : m.length = 6)
    (hch : i.channel = some ch) (hpw : i.power = some pw) (hph : i.phy = some ph)
    (hdv : i.device = some dv)
    (hrest : create_device rest bssOf hide = some (Except.ok rows)) :
    create_device (i :: rest) bssOf hide = some (Except.ok
      ({ label := nm
         bold := stt == 1
         signal := computeSignal bss.signal
         color := get_color_for_signal (Int.natAbs (computeSignal bss.signal))
         macText := get_security_info (get_security_info (macFormat m) hide) hide } :: rows)) :=
  create_device_row i rest bssOf hide _ rows
    (processInterface_success i bssOf hide nm m ix bss tl stt fr bi sn ch pw ph dv
      hnm hix hq hst hvu hfr hbi hsn hm h6 hch hpw hph hdv) hrest

/-- Claim C3 amended, witness: the concrete fully-populated interface with
hide false; the MAC field is the policy applied twice (which for hide
false reduces to the raw colon-separated string). -/
theorem c3_amended_witness :
    create_device [ifaceFull] bssOfFull false = some (Except.ok
      [{ label := [119, 108, 97, 110, 48], bold := true, signal := -45,
         color := Color.Green,
         macText := get_security_info
           (get_security_info (macFormat [170, 187, 204, 221, 238, 255]) false) false }]) :=
  c3_amended ifaceFull bssOfFull false [] [119, 108, 97, 110, 48]
    [170, 187, 204, 221, 238, 255] 3 bssFull [] 1 2412 100 10 1 2000 0 1 []
    rfl rfl rfl rfl rfl rfl rfl rfl rfl rfl rfl rfl rfl rfl rfl

/-! ## Claim C4 -/

/-- Claim C4 counterexample: an interface with a present name whose
access-point query returns no record does not stop the sample with the
`Internet connection failed` error signal — `first_mut()` returning `None`
just makes the `if let` chain skip the interface (src/src/main.rs lines
261-267), and the sample succeeds with an empty row set. -/
theorem c4_counterexample :
    create_device [ifaceFull] bssOfEmpty true = some (Except.ok []) ∧
    (some (Except.ok ([] : List Row)) : Option (Except AppState (List Row))) ≠
      some (Except.error
        (AppState.Error "Internet connection failed" "Internet connection do not exists")) :=
  ⟨rfl, fun h => Except.noConfusion (Option.some.inj h)⟩

/-- Claim C4 amended: for an interface with a present name, only a returned
record whose status field is absent stops the whole sample with
`ErrorSignal{Internet connection failed, Internet connection do not
exists}` (fail-fast, no partial row set); when the access-point query
returns no record at all, the interface is silently skipped and the rest of
the list is processed as if it were absent. -/
theorem c4_amended :
    (∀ (i : Interface) (rest : List Interface) (bssOf : Int → Option (List Bss))
        (hide : Bool) (nm : List Nat) (ix : Int),
        i.name = some nm → i.index = some ix → bssOf ix = some [] →
      create_device (i :: rest) bssOf hide = create_device rest bssOf hide) ∧
    (∀ (i : Interface) (rest : List Interface) (bssOf : Int → Option (List Bss))
        (hide : Bool) (nm : List Nat) (ix : Int) (bss : Bss) (tl : List Bss),
        i.name = some nm → i.index = some ix → bssOf ix = some (bss :: tl) →
        bss.status = none →
      create_device (i :: rest) bssOf hide =
        some (Except.error
          (AppState.Error "Internet connection failed" "Internet connection do not exists"))) := by
  constructor
  · intro i rest bssOf hide nm ix hnm hix hq
    exact create_device_skip _ _ _ _ (processInterface_noRecord i bssOf hide nm ix hnm hix hq)
  · intro i rest bssOf hide nm ix bss tl hnm hix hq hst
    exact create_device_err _ _ _ _ _
      (processInterface_noStatus i bssOf hide nm ix bss tl hnm hix hq hst)

/-- Claim C4 amended, witness: the empty-record query skips the interface
(the two-element list collapses to the one-element tail), and the
status-less record fail-fast errors. -/
theorem c4_amended_witness :
    create_device [ifaceFull, ifaceFull] bssOfEmpty true =
      create_device [ifaceFull] bssOfEmpty true ∧
    create_device [ifaceFull] bssOfNoStatus false =
      some (Except.error
        (AppState.Error "Internet connection failed" "Internet connection do not exists")) :=
  ⟨c4_amended.1 ifaceFull [ifaceFull] bssOfEmpty true [119, 108, 97, 110, 48] 3 rfl rfl rfl,
   c4_amended.2 ifaceFull [] bssOfNoStatus false [119, 108, 97, 110, 48] 3
     bssNoStatus [] rfl rfl rfl rfl⟩

/-! ## Claim C5 -/

/-- Claim C5: for every sequence of key events applied to a state with
`running = true`, `running` is false after the input task has consumed the
sequence if and only if the sequence contains an Esc or a 'q' key press,
and no other key changes `running`.  (Esc and 'q' toggle `running`, but the
input loop's `while running` guard stops consuming events as soon as
`running` becomes false, so a second Esc/'q' is never applied.) -/
theorem c5_thm (ks : List KeyCode) (st : ProgramState) (h : st.running = true) :
    ((input_thread st ks).running = false ↔
      ∃ k ∈ ks, k = KeyCode.Esc ∨ k = KeyCode.Char 'q') ∧
    (∀ (st2 : ProgramState) (k : KeyCode), k ≠ KeyCode.Esc → k ≠ KeyCode.Char 'q' →
      (applyKey st2 k).running = st2.running) :=
  ⟨input_thread_quit_iff ks st h, fun st2 k h1 h2 => applyKey_other_running st2 k h1 h2⟩

/-- Claim C5 witness: starting from the initial state, the sequence
m, h, q, u leaves `running` false (the 'q' fires, the trailing 'u' is
never consumed). -/
theorem c5_witness :
    initialState.running = true ∧
    (input_thread initialState
      [KeyCode.Char 'm', KeyCode.Char 'h', KeyCode.Char 'q', KeyCode.Char 'u']).running = false :=
  ⟨rfl, (c5_thm [KeyCode.Char 'm', KeyCode.Char 'h', KeyCode.Char 'q', KeyCode.Char 'u']
      initialState rfl).1.mpr ⟨KeyCode.Char 'q', by simp, Or.inr rfl⟩⟩

/-! ## Claim C6 -/

/-- Claim C6: the severity color is computed from the absolute magnitude of
the whole-dBm value exactly as the source's `get_color_for_signal(signal.abs())`
call: magnitude 0..=60 gives green, 61..=100 yellow, above 100 red; every
display row the pipeline actually builds (which requires the name bytes to
be valid UTF-8 — otherwise the source panics at line 278 before styling
anything) carries precisely this color for its signal; and the six pinned
sample magnitudes land in the stated buckets. -/
theorem c6_thm :
    (∀ v : Int,
      (Int.natAbs v ≤ 60 → get_color_for_signal (Int.natAbs v) = Color.Green) ∧
      (61 ≤ Int.natAbs v ∧ Int.natAbs v ≤ 100 →
        get_color_for_signal (Int.natAbs v) = Color.Yellow) ∧
      (100 < Int.natAbs v → get_color_for_signal (Int.natAbs v) = Color.Red)) ∧
    (∀ (i : Interface) (bssOf : Int → Option (List Bss)) (hide : Bool)
        (nm m : List Nat) (ix : Int) (bss : Bss) (tl : List Bss)
        (stt fr bi sn ch pw ph dv : Nat),
        i.name = some nm → i.index = some ix → bssOf ix = some (bss :: tl) →
        bss.status = some stt → utf8Valid nm = true → bss.frequency = some fr →
        bss.beacon_interval = some bi → bss.seen_ms_ago = some sn →
        i.mac = some m → m.length = 6 →
        i.channel = some ch → i.power = some pw → i.phy = some ph → i.device = some dv →
      rowColorOf (processInterface i bssOf hide) =
        some (get_color_for_signal (Int.natAbs (computeSignal bss.signal)))) ∧
    get_color_for_signal (Int.natAbs 0) = Color.Green ∧
    get_color_for_signal (Int.natAbs 60) = Color.Green ∧
    get_color_for_signal (Int.natAbs 61) = Color.Yellow ∧
    get_color_for_signal (Int.natAbs 100) = Color.Yellow ∧
    get_color_for_signal (Int.natAbs 101) = Color.Red ∧
    get_color_for_signal (Int.natAbs (-150)) = Color.Red := by
  refine ⟨?_, ?_, by decide, by decide, by decide, by decide, by decide, by decide⟩
  · intro v
    refine ⟨fun h => ?_, fun h => ?_, fun h => ?_⟩ <;>
      simp only [get_color_for_signal] <;> split_ifs with h1 h2 <;>
        first | rfl | omega
  · intro i bssOf hide nm m ix bss tl stt fr bi sn ch pw ph dv
      hnm hix hq hst hvu hfr hbi hsn hm h6 hch hpw hph hdv
    rw [processInterface_success i bssOf hide nm m ix bss tl stt fr bi sn ch pw ph dv
      hnm hix hq hst hvu hfr hbi hsn hm h6 hch hpw hph hdv]
    rfl

/-- Claim C6 witness: the bucket implications at magnitude 45 (green) and
150 (red), and the row-level conjunct at the concrete sample, whose signal
-45 dBm yields green. -/
theorem c6_witness :
    Int.natAbs (-45) ≤ 60 ∧ get_color_for_signal (Int.natAbs (-45)) = Color.Green ∧
    100 < Int.natAbs (-150) ∧ get_color_for_signal (Int.natAbs (-150)) = Color.Red ∧
    rowColorOf (processInterface ifaceFull bssOfFull false) =
      some (get_color_for_signal (Int.natAbs (computeSignal bssFull.signal))) :=
  ⟨by decide, (c6_thm.1 (-45)).1 (by decide),
   by decide, (c6_thm.1 (-150)).2.2 (by decide),
   c6_thm.2.1 ifaceFull bssOfFull false [119, 108, 97, 110, 48]
     [170, 187, 204, 221, 238, 255] 3 bssFull [] 1 2412 100 10 1 2000 0 1
     rfl rfl rfl rfl rfl rfl rfl rfl rfl rfl rfl rfl rfl rfl⟩

/-! ## Claim C7 -/

/-- Claim C7: the displayed whole-dBm signal of a produced row equals the
raw hundredths-of-dBm value divided by 100 with Rust's truncating integer
division (`Int.tdiv`) when the raw signal is present, and 0 when it is
absent (src/src/main.rs lines 286-289).  The hypotheses are the conditions
under which the source builds a row at all, including valid-UTF-8 name
bytes (the decode at line 278 precedes the signal computation and panics
otherwise). -/
theorem c7_thm (i : Interface) (bssOf : Int → Option (List Bss)) (hide : Bool)
    (nm m : List Nat) (ix : Int) (bss : Bss) (tl : List Bss)
    (stt fr bi sn ch pw ph dv : Nat)
    (hnm : i.name = some nm) (hix : i.index = some ix) (hq : bssOf ix = some (bss :: tl))
    (hst : bss.status = some stt) (hvu : utf8Valid nm = true)
    (hfr : bss.frequency = some fr)
    (hbi : bss.beacon_interval = some bi) (hsn : bss.seen_ms_ago = some sn)
    (hm : i.mac = some m) (h6 : m.length = 6)
    (hch : i.channel = some ch) (hpw : i.power = some pw) (hph : i.phy = some ph)
    (hdv : i.device = some dv) :
    (∀ raw : Int, bss.signal = some raw →
      rowSignalOf (processInterface i bssOf hide) = some (Int.tdiv raw 100)) ∧
    (bss.signal = none → rowSignalOf (processInterface i bssOf hide) = some 0) := by
  have hpi := processInterface_success i bssOf hide nm m ix bss tl stt fr bi sn ch pw ph dv
    hnm hix hq hst hvu hfr hbi hsn hm h6 hch hpw hph hdv
  constructor
  · intro raw hraw
    rw [hpi]
    simp [rowSignalOf, computeSignal, hraw]
  · intro hraw
    rw [hpi]
    simp [rowSignalOf, computeSignal, hraw]

/-- Claim C7 witness: the concrete sample reports -4500 hundredths of dBm
and the produced row displays -45 whole dBm (truncating division). -/
theorem c7_witness :
    bssFull.signal = some (-4500) ∧
    rowSignalOf (processInterface ifaceFull bssOfFull false) = some (Int.tdiv (-4500) 100) ∧
    rowSignalOf (processInterface ifaceFull bssOfFull false) = some (-45) :=
  ⟨rfl,
   (c7_thm ifaceFull bssOfFull false [119, 108, 97, 110, 48]
      [170, 187, 204, 221, 238, 255] 3 bssFull [] 1 2412 100 10 1 2000 0 1
      rfl rfl rfl rfl rfl rfl rfl rfl rfl rfl rfl rfl rfl rfl).1 (-4500) rfl,
   by decide⟩

/-! ## Claim C8 -/

/-- Claim C8: with the hide flag false the Anonymization Policy is the
identity on every input string (src/src/main.rs line 374: the function
returns `inf.to_string()` when `sec` is false; the hasher built at line 368
is never fed). -/
theorem c8_thm (v : String) : get_security_info v false = v := rfl

/-! ## Claim C9 -/

/-- Claim C9: the Anonymization Policy with hide true is deterministic
within a process run: two calls on identical input strings return the same
digest.  In the source each call builds a fresh `DefaultHasher::new()`,
which is `SipHasher13::new_with_keys(0, 0)` — fixed keys, no per-run or
per-call randomness — so the digest is a pure function of the input, as the
embedding `hashStr` (SipHash-1-3 with keys 0,0) makes manifest. -/
theorem c9_thm (v w : String) (h : v = w) :
    get_security_info v true = get_security_info w true := by rw [h]

/-- Claim C9 witness: two calls on the concrete MAC string agree. -/
theorem c9_witness :
    get_security_info "AA:BB:CC:DD:EE:FF" true = get_security_info "AA:BB:CC:DD:EE:FF" true :=
  c9_thm "AA:BB:CC:DD:EE:FF" "AA:BB:CC:DD:EE:FF" rfl

/-! ## Claim C10 -/

/-- Claim C10 counterexample: an interface whose MAC address is absent is
not always silently skipped without error: the status check at
src/src/main.rs lines 268-276 runs before the MAC check at line 297, so a
name-bearing interface with no MAC whose access-point record lacks a status
field aborts the whole sample with the `Internet connection failed` error
signal instead of contributing nothing. -/
theorem c10_counterexample :
    create_device [ifaceNoMac] bssOfNoStatus true =
      some (Except.error
        (AppState.Error "Internet connection failed" "Internet connection do not exists")) ∧
    (some (Except.error
        (AppState.Error "Internet connection failed" "Internet connection do not exists")) :
      Option (Except AppState (List Row))) ≠ some (Except.ok []) :=
  ⟨rfl, fun h => Except.noConfusion (Option.some.inj h)⟩

/-- Claim C10 amended: an interface whose name is absent contributes no
display row and raises no error — it is skipped before any query and the
remaining interfaces are processed in order.  An interface with a present
name but an absent MAC still performs the access-point query, the status
check and the name decode; only when the record has a status field, the
name bytes are valid UTF-8 (the decode at src/src/main.rs line 278 happens
before the MAC check and panics otherwise) and the logged metadata fields
are present is it skipped with no row and no error, the remaining
interfaces still processed; when the status field is absent it instead
aborts the sample with the connection error. -/
theorem c10_amended :
    (∀ (i : Interface) (rest : List Interface) (bssOf : Int → Option (List Bss))
        (hide : Bool), i.name = none →
      create_device (i :: rest) bssOf hide = create_device rest bssOf hide) ∧
    (∀ (i : Interface) (rest : List Interface) (bssOf : Int → Option (List Bss))
        (hide : Bool) (nm : List Nat) (ix : Int) (bss : Bss) (tl : List Bss)
        (stt fr bi sn : Nat),
        i.name = some nm → i.index = some ix → bssOf ix = some (bss :: tl) →
        bss.status = some stt → utf8Valid nm = true → bss.frequency = some fr →
        bss.beacon_interval = some bi → bss.seen_ms_ago = some sn → i.mac = none →
      create_device (i :: rest) bssOf hide = create_device rest bssOf hide) ∧
    (∀ (i : Interface) (rest : List Interface) (bssOf : Int → Option (List Bss))
        (hide : Bool) (nm : List Nat) (ix : Int) (bss : Bss) (tl : List Bss),
        i.name = some nm → i.index = some ix → bssOf ix = some (bss :: tl) →
        bss.status = none → i.mac = none →
      create_device (i :: rest) bssOf hide =
        some (Except.error
          (AppState.Error "Internet connection failed" "Internet connection do not exists"))) := by
  refine ⟨?_, ?_, ?_⟩
  · intro i rest bssOf hide hnm
    exact create_device_skip _ _ _ _ (processInterface_noName i bssOf hide hnm)
  · intro i rest bssOf hide nm ix bss tl stt fr bi sn hnm hix hq hst hvu hfr hbi hsn hm
    exact create_device_skip _ _ _ _
      (processInterface_noMac i bssOf hide nm ix bss tl stt fr bi sn
        hnm hix hq hst hvu hfr hbi hsn hm)
  · intro i rest bssOf hide nm ix bss tl hnm hix hq hst _
    exact create_device_err _ _ _ _ _
      (processInterface_noStatus i bssOf hide nm ix bss tl hnm hix hq hst)

/-- Claim C10 amended, witness: a nameless interface and a MAC-less
interface with a healthy record are both skipped with the tail still
processed; the MAC-less interface with a status-less record errors. -/
theorem c10_amended_witness :
    create_device [ifaceNoName, ifaceFull] bssOfFull true =
      create_device [ifaceFull] bssOfFull true ∧
    create_device [ifaceNoMac, ifaceFull] bssOfFull true =
      create_device [ifaceFull] bssOfFull true ∧
    create_device [ifaceNoMac] bssOfNoStatus false =
      some (Except.error
        (AppState.Error "Internet connection failed" "Internet connection do not exists")) :=
  ⟨c10_amended.1 ifaceNoName [ifaceFull] bssOfFull true rfl,
   c10_amended.2.1 ifaceNoMac [ifaceFull] bssOfFull true [119, 108, 97, 110, 48] 3
     bssFull [] 1 2412 100 10 rfl rfl rfl rfl rfl rfl rfl rfl rfl,
   c10_amended.2.2 ifaceNoMac [] bssOfNoStatus false [119, 108, 97, 110, 48] 3
     bssNoStatus [] rfl rfl rfl rfl rfl⟩

end WifiCheck
